import Mathlib

/-!
Verification of the zap `Logger` core (file `src/trans/logger_trans.go`):
the admission/check pipeline, terminal-action resolution, and the
clone-based configuration operations (`Named`, `With`, `WithOptions`,
`Sugar`, `New`, `NewNop`) together with the `Option` combinators.

The `zapcore` package (levels, `Core`, `CheckedEntry`, write syncers,
clocks, stack capture) is a collaborator of this file and is not part of
the given sources; those pieces are modelled from the spec's interface
description and marked as such in their doc comments.

Pointer-based mutation (Go `*Logger` receivers, `clone`, and in-place
`Option.apply`) is embedded with an explicit store of logger cells, so
that "the receiver is not mutated" is a provable frame property rather
than a modelling artefact.
-/

namespace Zap

/-- Modelled from the spec: severity levels of the zapcore collaborator
(Debug = -1 through Fatal = 5, ordered by their integer codes). -/
inductive Level where
  | debug
  | info
  | warn
  | error
  | dpanic
  | panic
  | fatal
deriving DecidableEq

/-- Modelled from the spec: the integer code of a zapcore level
(DebugLevel = -1, InfoLevel = 0, ..., FatalLevel = 5); levels are
compared through these codes. -/
def Level.toInt : Level → Int
  | .debug => -1
  | .info => 0
  | .warn => 1
  | .error => 2
  | .dpanic => 3
  | .panic => 4
  | .fatal => 5

/-- Modelled from the spec: a terminal action attached to an admission
record (`zapcore.CheckWriteHook`).  The named constructors are the
predefined `CheckWriteAction` constants; `custom` stands for any
user-supplied hook, tagged so that distinct hooks are distinguishable
(a user hook is never equal to a predefined constant, matching Go
interface equality on distinct dynamic types). -/
inductive CheckWriteHook where
  | writeThenNoop
  | writeThenGoexit
  | writeThenPanic
  | writeThenFatal
  | custom (id : Nat)
deriving DecidableEq

/-- Modelled from the spec: an opaque write syncer handle.  `stderr`
stands for `zapcore.Lock(os.Stderr)` (the default error output) and
`discard` for `zapcore.AddSync(ioutil.Discard)` (the no-op logger's
error output); `custom` is any user-supplied syncer. -/
inductive WriteSyncer where
  | stderr
  | discard
  | custom (id : Nat)
deriving DecidableEq

/-- Modelled from the spec: an injectable time source (`zapcore.Clock`);
`now` is the timestamp its `Now()` returns. -/
structure Clock where
  now : Nat
deriving DecidableEq

/-- Modelled from the spec: the system clock `zapcore.DefaultClock`
(its concrete readings are opaque to this core). -/
def defaultClock : Clock := { now := 0 }

/-- Modelled from the spec: a structured field; its contents are opaque
to the logger core, which only threads fields to the sink capability. -/
structure Field where
  key : String
  value : String
deriving DecidableEq

/-- Modelled from the spec: `zapcore.LevelEnabler` — a predicate on
levels deciding whether stack traces are attached at that level. -/
def LevelEnabler : Type := Level → Bool

/-- Modelled from the spec: the enabler `zapcore.FatalLevel + 1` (the
level with code 6 used as an enabler: enabled at `lvl` iff
`6 <= lvl`); it is satisfied by no level, so the default logger
attaches no stack traces. -/
def fatalPlus1 : LevelEnabler := fun lvl => decide (6 ≤ lvl.toInt)

/-- Modelled from the spec: a stack frame yielded by the capture
capability (`runtime.Frame`: program counter, file, line, function). -/
structure Frame where
  pc : Nat
  file : String
  line : Nat
  function : String
deriving DecidableEq

/-- Modelled from the spec: depth policy of a capture session —
first-frame-only (`stacktraceFirst`) or full (`stacktraceFull`). -/
inductive StackDepth where
  | first
  | full
deriving DecidableEq

/-- Modelled from the spec: the stack/caller capture capability
(`captureStacktrace`): given a skip depth and a depth policy it yields
the finite sequence of available frames. -/
def CaptureFn : Type := Int → StackDepth → List Frame

/-- Modelled from the spec: `zapcore.EntryCaller` — an optional caller
location with a defined/undefined flag. -/
structure EntryCaller where
  defined : Bool
  pc : Nat
  file : String
  line : Nat
  function : String
deriving DecidableEq

/-- Modelled from the spec: the zero-valued (undefined) caller of a
freshly built entry. -/
def EntryCaller.empty : EntryCaller :=
  { defined := false, pc := 0, file := "", line := 0, function := "" }

/-- Modelled from the spec: `zapcore.Entry` — name, timestamp, level,
message, plus the caller and stack annotations (zero-valued until the
pipeline fills them in). -/
structure Entry where
  loggerName : String
  time : Nat
  level : Level
  message : String
  caller : EntryCaller
  stack : String
deriving DecidableEq

/-- Modelled from the spec: `zapcore.CheckedEntry` — the admission
record: the entry, the error output attached for internal-failure
reporting during the eventual write (absent until attached), and the
resolved terminal action (`should`, absent until a terminal severity
forces one). -/
structure CheckedEntry where
  entry : Entry
  errorOutput : Option WriteSyncer
  should : Option CheckWriteHook
deriving DecidableEq

/-- Modelled from the spec: `CheckedEntry.After` (and `Should`, which
is `After` with a predefined action): set the terminal action on the
record, synthesizing a minimal record carrying the entry when the
receiver is nil. -/
def CheckedEntry.after (ce : Option CheckedEntry) (ent : Entry) (hook : CheckWriteHook) :
    CheckedEntry :=
  match ce with
  | none => { entry := ent, errorOutput := none, should := some hook }
  | some c => { c with should := some hook }

/-- Modelled from the spec: the sink capability (`zapcore.Core`).
`enabledF` answers `Enabled(level)`; `checkAdmits` decides whether
`Check(entry, nil)` returns an admission record for this entry; `ctx`
is the structured context accumulated through `With`. -/
structure Core where
  enabledF : Level → Bool
  checkAdmits : Entry → Bool
  ctx : List Field

/-- Modelled from the spec: `Core.Enabled(level)`. -/
def Core.enabled (c : Core) (lvl : Level) : Bool := c.enabledF lvl

/-- Modelled from the spec: `Core.Check(entry, nil)` — returns a fresh
admission record for the entry when the sink admits it, nothing
otherwise. -/
def Core.check (c : Core) (ent : Entry) : Option CheckedEntry :=
  if c.checkAdmits ent then
    some { entry := ent, errorOutput := none, should := none }
  else
    none

/-- Modelled from the spec: `Core.With(fields)` — a new sink reference
holding the accumulated context extended with the new fields. -/
def Core.withFields (c : Core) (fs : List Field) : Core :=
  { c with ctx := c.ctx ++ fs }

/-- Modelled from the spec: `zapcore.NewNopCore()` — a sink that is
enabled at no level, admits nothing and holds no context. -/
def nopCore : Core :=
  { enabledF := fun _ => false, checkAdmits := fun _ => false, ctx := [] }

/-- Observable effects of one run of the check pipeline: how many times
the time source, the sink's `Check` and the stack-capture capability
were invoked, the internal-error reports written (destination and
text), and how many times the error output was synced. -/
structure CheckEffects where
  clockCalls : Nat
  coreCheckCalls : Nat
  captureCalls : Nat
  internalErrors : List (WriteSyncer × String)
  syncCalls : Nat
deriving DecidableEq

/-- Effects of a call rejected on the fast path: nothing was invoked. -/
def CheckEffects.rejected : CheckEffects :=
  { clockCalls := 0, coreCheckCalls := 0, captureCalls := 0, internalErrors := [], syncCalls := 0 }

/-- Effects of a call that built the entry and consulted the sink but
never started a capture session. -/
def CheckEffects.afterCheck : CheckEffects :=
  { clockCalls := 1, coreCheckCalls := 1, captureCalls := 0, internalErrors := [], syncCalls := 0 }

/-- Effects of a call that also ran one capture session, successfully. -/
def CheckEffects.afterCapture : CheckEffects :=
  { clockCalls := 1, coreCheckCalls := 1, captureCalls := 1, internalErrors := [], syncCalls := 0 }

/-- The internal-error line `fmt.Fprintf` writes when caller capture
yields no frames: the entry time followed by the fixed message. -/
def callerErrorLine (t : Nat) : String :=
  toString t ++ " Logger.check error: failed to get caller\n"

/-- Effects of a call whose capture session yielded zero frames while
caller annotation was requested: one internal-error report to the given
error output, followed by one sync of it. -/
def CheckEffects.captureFailed (w : WriteSyncer) (t : Nat) : CheckEffects :=
  { clockCalls := 1, coreCheckCalls := 1, captureCalls := 1,
    internalErrors := [(w, callerErrorLine t)], syncCalls := 1 }

/-- The logger snapshot (`Logger` struct of `logger_trans.go`): sink
capability, development and caller-annotation flags, fatal override
hook (`onFatal`, nil by default), dotted name, error output, stack
policy, caller-skip count and clock. -/
structure Logger where
  core : Core
  development : Bool
  addCaller : Bool
  onFatal : Option CheckWriteHook
  name : String
  errorOutput : WriteSyncer
  addStack : LevelEnabler
  callerSkip : Int
  clock : Clock

/-- Entry construction step of `Logger.check`: name from the snapshot,
timestamp from the snapshot's clock, the given level and message,
caller and stack zero-valued. -/
def Logger.mkEntry (log : Logger) (lvl : Level) (msg : String) : Entry :=
  { loggerName := log.name, time := log.clock.now, level := lvl, message := msg,
    caller := EntryCaller.empty, stack := "" }

/-- Modelled from the spec: the caller location taken from the first
captured frame (`Defined` iff a valid program counter was obtained). -/
def Frame.toCaller (f : Frame) : EntryCaller :=
  { defined := f.pc != 0, pc := f.pc, file := f.file, line := f.line, function := f.function }

/-- Modelled from the spec: `stackFormatter.FormatFrame`. -/
def formatFrame (f : Frame) : String :=
  f.function ++ "\n\t" ++ f.file ++ ":" ++ toString f.line

/-- Modelled from the spec: the formatted stack string — the first
frame, then the remaining frames of the session. -/
def formatStackText (first : Frame) (rest : List Frame) : String :=
  rest.foldl (fun acc f => acc ++ "\n" ++ formatFrame f) (formatFrame first)

/-- Annotation tail of `Logger.check` (lines 428-485 of
`logger_trans.go`), entered only when a real write is pending: attach
the error output, then — if caller annotation or the stack policy asks
for it — run one capture session and fill in caller and/or stack,
reporting an internal error when caller annotation was requested but no
frame was available.  The returned effects describe the whole check
call (exactly one clock reading and one sink check precede this tail on
every path that reaches it). -/
def Logger.annotate (log : Logger) (capture : CaptureFn) (c : CheckedEntry) :
    CheckedEntry × CheckEffects :=
  let c := { c with errorOutput := some log.errorOutput }
  let addStack := log.addStack c.entry.level
  if log.addCaller = false ∧ addStack = false then
    (c, CheckEffects.afterCheck)
  else
    let stackDepth := if addStack then StackDepth.full else StackDepth.first
    match capture (log.callerSkip + 2) stackDepth with
    | [] =>
        if log.addCaller then
          (c, CheckEffects.captureFailed log.errorOutput c.entry.time)
        else
          (c, CheckEffects.afterCapture)
    | frame :: more =>
        let c := if log.addCaller then { c with entry := { c.entry with caller := frame.toCaller } } else c
        let c := if addStack then { c with entry := { c.entry with stack := formatStackText frame more } } else c
        (c, CheckEffects.afterCapture)

/-- The admission/check pipeline `Logger.check` (lines 353-486 of
`logger_trans.go`), instrumented with the effects it performs: fast
rejection below DPanic when the sink reports the level disabled; entry
construction; sink admission; terminal-action resolution for Panic,
Fatal and (in development mode) DPanic; early return when no real
write is pending; error-output threading and caller/stack annotation
otherwise. -/
def Logger.check (log : Logger) (capture : CaptureFn) (lvl : Level) (msg : String) :
    Option CheckedEntry × CheckEffects :=
  if lvl.toInt < Level.dpanic.toInt ∧ log.core.enabled lvl = false then
    (none, CheckEffects.rejected)
  else
    let ent := log.mkEntry lvl msg
    let ce := log.core.check ent
    let willWrite := ce.isSome
    let ce :=
      match ent.level with
      | .panic => some (CheckedEntry.after ce ent .writeThenPanic)
      | .fatal =>
          let onFatal :=
            match log.onFatal with
            | none => CheckWriteHook.writeThenFatal
            | some .writeThenNoop => CheckWriteHook.writeThenFatal
            | some h => h
          some (CheckedEntry.after ce ent onFatal)
      | .dpanic =>
          if log.development then some (CheckedEntry.after ce ent .writeThenPanic) else ce
      | _ => ce
    if willWrite = false then
      (ce, CheckEffects.afterCheck)
    else
      match ce with
      | none => (none, CheckEffects.afterCheck)
      | some c =>
          let r := log.annotate capture c
          (some r.1, r.2)

/-- A pointer to a logger cell in the store (a Go `*Logger`). -/
abbrev Ptr : Type := Nat

/-- The heap of logger cells.  Go's configuration operations receive a
`*Logger`, clone the pointed-to struct into a fresh cell and mutate
only the clone; the store makes those pointer writes explicit. -/
structure Store where
  cells : List Logger

/-- Dereference a pointer (`nothing` for a dangling pointer, which the
Go API never produces; theorems assume validity). -/
def Store.get (s : Store) (p : Ptr) : Option Logger := s.cells[p]?

/-- Allocate a fresh cell holding `d`, returning the new store and the
fresh pointer. -/
def Store.alloc (s : Store) (d : Logger) : Store × Ptr :=
  ({ cells := s.cells ++ [d] }, s.cells.length)

/-- Write `d` through pointer `p` (a no-op on a dangling pointer). -/
def Store.write (s : Store) (p : Ptr) (d : Logger) : Store :=
  { cells := s.cells.set p d }

/-- Go `Logger.clone`: copy the pointed-to struct by value into a fresh
cell and return a pointer to the copy. -/
def Logger.clone (s : Store) (p : Ptr) : Store × Ptr :=
  match s.get p with
  | none => (s, p)
  | some d => s.alloc d

/-- Go `Logger.Named(s)`: no-op on the empty segment (the receiver pointer
itself is returned); otherwise clone and set the clone's name to the
segment, or to `strings.Join([name, segment], ".")` when the receiver
is already named.  (`clone` is inlined as dereference-then-allocate to
have the cell's data in scope.) -/
def Logger.named (s : Store) (p : Ptr) (seg : String) : Store × Ptr :=
  if seg = "" then
    (s, p)
  else
    match s.get p with
    | none => (s, p)
    | some d =>
        let sq := s.alloc d
        let name1 := if d.name = "" then seg else String.intercalate "." [d.name, seg]
        (sq.1.write sq.2 { d with name := name1 }, sq.2)

/-- Go `Logger.With(fields)` (`with` is a Lean keyword): no-op on an empty
field list; otherwise clone and replace the clone's core by
`core.With(fields)`. -/
def Logger.withFields (s : Store) (p : Ptr) (fields : List Field) : Store × Ptr :=
  if fields = [] then
    (s, p)
  else
    match s.get p with
    | none => (s, p)
    | some d =>
        let sq := s.alloc d
        (sq.1.write sq.2 { d with core := d.core.withFields fields }, sq.2)

/-- An `Option` of `logger_trans.go` (named `ZOption` here because
`Option` is taken by Lean): one constructor per combinator defined in
the source, each carrying the data its closure captures.  (`Hooks` and
`IncreaseLevel`, which delegate to zapcore constructors, are expressible
through `wrapCore`.) -/
inductive ZOption where
  | wrapCore (f : Core → Core)
  | fields (fs : List Field)
  | errorOutput (w : WriteSyncer)
  | development
  | withCaller (enabled : Bool)
  | addCallerSkip (skip : Int)
  | addStacktrace (lvl : LevelEnabler)
  | withFatalHook (hook : Option CheckWriteHook)
  | withClock (clock : Clock)

/-- The body of each option's `apply` closure, as a function on the
pointed-to struct: `WrapCore` replaces the core, `Fields` accumulates
context through the core's `With`, `Development` sets the flag,
`WithCaller` sets the caller flag, `AddCallerSkip` adds to the skip
count, `AddStacktrace` replaces the stack policy, `WithFatalHook` sets
the fatal override hook, `WithClock` replaces the clock. -/
def ZOption.applyData : ZOption → Logger → Logger
  | .wrapCore f, d => { d with core := f d.core }
  | .fields fs, d => { d with core := d.core.withFields fs }
  | .errorOutput w, d => { d with errorOutput := w }
  | .development, d => { d with development := true }
  | .withCaller b, d => { d with addCaller := b }
  | .addCallerSkip k, d => { d with callerSkip := d.callerSkip + k }
  | .addStacktrace e, d => { d with addStack := e }
  | .withFatalHook h, d => { d with onFatal := h }
  | .withClock c, d => { d with clock := c }

/-- Go `opt.apply(c)`: mutate the pointed-to working copy in place. -/
def ZOption.apply (o : ZOption) (s : Store) (p : Ptr) : Store :=
  match s.get p with
  | none => s
  | some d => s.write p (o.applyData d)

/-- Go `Logger.WithOptions(opts...)`: clone once, then apply each option
in order, left to right, to that single working copy. -/
def Logger.withOptions (s : Store) (p : Ptr) (opts : List ZOption) : Store × Ptr :=
  match s.get p with
  | none => (s, p)
  | some d =>
      let sq := s.alloc d
      (opts.foldl (fun st o => o.apply st sq.2) sq.1, sq.2)

/-- The ergonomic view returned by `Logger.Sugar`, wrapping the cloned
logger. -/
structure SugaredLogger where
  base : Ptr

/-- Go `Logger.Sugar()`: clone, add 2 to the clone's caller-skip count,
and wrap the clone in a `SugaredLogger`. -/
def Logger.sugar (s : Store) (p : Ptr) : Store × SugaredLogger :=
  match s.get p with
  | none => (s, { base := p })
  | some d =>
      let sq := s.alloc d
      (sq.1.write sq.2 { d with callerSkip := d.callerSkip + 2 }, { base := sq.2 })

/-- The no-op logger built by `NewNop`: no-op core, discarded error
output, stack traces at no level, default clock, zero values for the
remaining fields. -/
def nopLogger : Logger :=
  { core := nopCore, development := false, addCaller := false, onFatal := none,
    name := "", errorOutput := WriteSyncer.discard, addStack := fatalPlus1,
    callerSkip := 0, clock := defaultClock }

/-- Go `NewNop()`: allocate a fresh no-op logger. -/
def NewNop (s : Store) : Store × Ptr :=
  s.alloc nopLogger

/-- Go `New(core, options...)`: fall back to `NewNop` when the passed core
is nil; otherwise allocate a logger with the default error output
(locked stderr), stack policy `FatalLevel + 1` and default clock, then
apply the options through `WithOptions`. -/
def New (s : Store) (core : Option Core) (opts : List ZOption) : Store × Ptr :=
  match core with
  | none => NewNop s
  | some c =>
      let sq := s.alloc
        { core := c, development := false, addCaller := false, onFatal := none,
          name := "", errorOutput := WriteSyncer.stderr, addStack := fatalPlus1,
          callerSkip := 0, clock := defaultClock }
      Logger.withOptions sq.1 sq.2 opts

/-! ## Store lemmas -/

theorem Store.lt_of_get_some {s : Store} {p : Ptr} {d : Logger} (h : s.get p = some d) :
    p < s.cells.length :=
  (List.getElem?_eq_some.mp h).1

theorem Store.get_alloc_self (s : Store) (d : Logger) :
    (s.alloc d).1.get (s.alloc d).2 = some d :=
  List.getElem?_concat_length _ _

theorem Store.get_alloc_of_lt {s : Store} {p : Ptr} (h : p < s.cells.length) (d2 : Logger) :
    (s.alloc d2).1.get p = s.get p :=
  List.getElem?_append_left h

theorem Store.length_alloc (s : Store) (d : Logger) :
    (s.alloc d).1.cells.length = s.cells.length + 1 := by
  simp [Store.alloc]

theorem Store.get_write_ne {s : Store} {q p : Ptr} (h : q ≠ p) (d : Logger) :
    (s.write q d).get p = s.get p :=
  List.getElem?_set_ne h

theorem Store.get_write_self {s : Store} {p : Ptr} (h : p < s.cells.length) (d : Logger) :
    (s.write p d).get p = some d :=
  List.getElem?_set_eq_of_lt d h

theorem Store.length_write (s : Store) (p : Ptr) (d : Logger) :
    (s.write p d).cells.length = s.cells.length := by
  simp [Store.write]

/-- Applying an option through a pointer leaves every other cell
untouched. -/
theorem ZOption.apply_get_ne {p c : Ptr} (hne : c ≠ p) (o : ZOption) (st : Store) :
    (o.apply st c).get p = st.get p := by
  unfold ZOption.apply
  cases hg : st.get c with
  | none => rfl
  | some d => exact Store.get_write_ne hne _

/-- Folding a list of option applications over one working-copy pointer
leaves every other cell untouched. -/
theorem ZOption.foldl_apply_get_ne {p c : Ptr} (hne : c ≠ p) (opts : List ZOption) (st : Store) :
    (opts.foldl (fun s o => o.apply s c) st).get p = st.get p := by
  induction opts generalizing st with
  | nil => rfl
  | cons o rest ih =>
      rw [List.foldl_cons, ih, ZOption.apply_get_ne hne]

/-- Folding option applications over one working-copy pointer computes
the pure left fold of the option bodies on that cell's data. -/
theorem ZOption.foldl_apply_get_self {c : Ptr} (opts : List ZOption) (st : Store) (acc : Logger)
    (h : st.get c = some acc) :
    (opts.foldl (fun s o => o.apply s c) st).get c =
      some (opts.foldl (fun a o => o.applyData a) acc) := by
  induction opts generalizing st acc with
  | nil => simpa using h
  | cons o rest ih =>
      rw [List.foldl_cons, List.foldl_cons]
      refine ih _ _ ?_
      unfold ZOption.apply
      rw [h]
      exact Store.get_write_self (Store.lt_of_get_some h) _

/-- Reading `WithOptions` back as the pure left fold of the option bodies
over the receiver's data, on a single fresh working copy. -/
theorem Logger.withOptions_get {s : Store} {p : Ptr} {d : Logger} (h : s.get p = some d)
    (opts : List ZOption) :
    (Logger.withOptions s p opts).1.get (Logger.withOptions s p opts).2 =
      some (opts.foldl (fun a o => o.applyData a) d) := by
  unfold Logger.withOptions
  rw [h]
  exact ZOption.foldl_apply_get_self opts _ d (Store.get_alloc_self s d)

/-! ## Annotation-step lemmas -/

/-- The annotation tail never changes the resolved terminal action. -/
theorem Logger.annotate_should (log : Logger) (capture : CaptureFn) (c : CheckedEntry) :
    (log.annotate capture c).1.should = c.should := by
  simp only [Logger.annotate]
  split
  · rfl
  · split
    · split <;> rfl
    · split <;> split <;> rfl

/-- The annotation tail always attaches the snapshot's error output. -/
theorem Logger.annotate_errorOutput (log : Logger) (capture : CaptureFn) (c : CheckedEntry) :
    (log.annotate capture c).1.errorOutput = some log.errorOutput := by
  simp only [Logger.annotate]
  split
  · rfl
  · split
    · split <;> rfl
    · split <;> split <;> rfl

/-! ## Entry-construction projections -/

@[simp] theorem Logger.mkEntry_level (log : Logger) (lvl : Level) (msg : String) :
    (log.mkEntry lvl msg).level = lvl := rfl

@[simp] theorem Logger.mkEntry_time (log : Logger) (lvl : Level) (msg : String) :
    (log.mkEntry lvl msg).time = log.clock.now := rfl

@[simp] theorem Logger.mkEntry_caller (log : Logger) (lvl : Level) (msg : String) :
    (log.mkEntry lvl msg).caller = EntryCaller.empty := rfl

@[simp] theorem Logger.mkEntry_stack (log : Logger) (lvl : Level) (msg : String) :
    (log.mkEntry lvl msg).stack = "" := rfl

/-! ## Claim theorems -/

/-- C3: every Panic-level call to the check pipeline returns a non-nil
admission record whose terminal action is panic-after-write
(`WriteThenPanic`), a minimal record being synthesized when the sink's
`Check` returned nothing. -/
theorem check_panic_forces_panic_action (log : Logger) (capture : CaptureFn) (msg : String) :
    (log.check capture .panic msg).1.map CheckedEntry.should =
      some (some CheckWriteHook.writeThenPanic) := by
  cases hA : log.core.checkAdmits (log.mkEntry .panic msg) with
  | false =>
      simp [Logger.check, Core.check, hA, Level.toInt, CheckedEntry.after]
  | true =>
      simp [Logger.check, Core.check, hA, Level.toInt, CheckedEntry.after,
        Logger.annotate_should]

/-- C1: every Fatal-level call to the check pipeline returns a non-nil
admission record (synthesized when the sink's `Check` returned nothing)
whose terminal action is the configured fatal override hook, except
that a nil (unset) hook or the explicit no-op action `WriteThenNoop`
is replaced by fatal-process-exit-after-write (`WriteThenFatal`). -/
theorem check_fatal_resolves_override_hook (log : Logger) (capture : CaptureFn) (msg : String) :
    (log.check capture .fatal msg).1.map CheckedEntry.should =
      some (some (match log.onFatal with
        | none => CheckWriteHook.writeThenFatal
        | some CheckWriteHook.writeThenNoop => CheckWriteHook.writeThenFatal
        | some h => h)) := by
  cases hA : log.core.checkAdmits (log.mkEntry .fatal msg) with
  | false =>
      cases hO : log.onFatal with
      | none => simp [Logger.check, Core.check, hA, hO, Level.toInt, CheckedEntry.after]
      | some h =>
          cases h <;>
            simp [Logger.check, Core.check, hA, hO, Level.toInt, CheckedEntry.after]
  | true =>
      cases hO : log.onFatal with
      | none =>
          simp [Logger.check, Core.check, hA, hO, Level.toInt, CheckedEntry.after,
            Logger.annotate_should]
      | some h =>
          cases h <;>
            simp [Logger.check, Core.check, hA, hO, Level.toInt, CheckedEntry.after,
              Logger.annotate_should]

/-- C6: a DPanic-level call to the check pipeline forces
panic-after-write (synthesizing a record if the sink declined) exactly
when the snapshot's development flag is set; otherwise no terminal
action is forced and the record is the sink's admission outcome of a
normal write. -/
theorem check_dpanic_development_gates_panic_action (log : Logger) (capture : CaptureFn)
    (msg : String) :
    (log.check capture .dpanic msg).1.map CheckedEntry.should =
      (if log.development then some (some CheckWriteHook.writeThenPanic)
       else if log.core.checkAdmits (log.mkEntry .dpanic msg) then some none else none) := by
  cases hD : log.development with
  | false =>
      cases hA : log.core.checkAdmits (log.mkEntry .dpanic msg) with
      | false => simp [Logger.check, Core.check, hA, hD, Level.toInt, CheckedEntry.after]
      | true =>
          simp [Logger.check, Core.check, hA, hD, Level.toInt, CheckedEntry.after,
            Logger.annotate_should]
  | true =>
      cases hA : log.core.checkAdmits (log.mkEntry .dpanic msg) with
      | false => simp [Logger.check, Core.check, hA, hD, Level.toInt, CheckedEntry.after]
      | true =>
          simp [Logger.check, Core.check, hA, hD, Level.toInt, CheckedEntry.after,
            Logger.annotate_should]

/-- C2: below DPanicLevel, a call for a level the sink reports disabled
is rejected on the fast path: the pipeline returns nothing and performs
no clock reading (hence no entry construction), no sink check and no
caller/stack capture. -/
theorem check_disabled_below_dpanic_rejects (log : Logger) (capture : CaptureFn) (lvl : Level)
    (msg : String) (hlt : lvl.toInt < Level.dpanic.toInt)
    (hdis : log.core.enabled lvl = false) :
    log.check capture lvl msg = (none, CheckEffects.rejected) ∧
    CheckEffects.rejected.clockCalls = 0 ∧
    CheckEffects.rejected.coreCheckCalls = 0 ∧
    CheckEffects.rejected.captureCalls = 0 := by
  refine ⟨?_, rfl, rfl, rfl⟩
  simp [Logger.check, hlt, hdis]

/-- Witness for C2 at a concrete input: an Info-level call on the no-op
logger is rejected with no effects. -/
theorem check_disabled_below_dpanic_rejects_witness :
    Logger.check nopLogger (fun _ _ => []) .info "m" = (none, CheckEffects.rejected) ∧
    CheckEffects.rejected.clockCalls = 0 ∧
    CheckEffects.rejected.coreCheckCalls = 0 ∧
    CheckEffects.rejected.captureCalls = 0 :=
  check_disabled_below_dpanic_rejects nopLogger (fun _ _ => []) .info "m" (by decide) rfl

/-- A record (or absent record) that carries no annotation: no attached
error output, no defined caller, no stack text. -/
def unannotated : Option CheckedEntry → Bool
  | none => true
  | some ce => ce.errorOutput.isNone && !ce.entry.caller.defined && (ce.entry.stack == "")

/-- C7: when the sink's `Check` returns nothing for an entry the
pipeline actually checks, the (possibly synthesized) record is returned
as-is: no capture session is started, no internal error is reported,
and the record carries no error output, caller or stack annotation. -/
theorem check_no_admission_skips_annotation_work (log : Logger) (capture : CaptureFn) (lvl : Level)
    (msg : String) (hen : lvl.toInt < Level.dpanic.toInt → log.core.enabled lvl = true)
    (hA : log.core.checkAdmits (log.mkEntry lvl msg) = false) :
    (log.check capture lvl msg).2.captureCalls = 0 ∧
    (log.check capture lvl msg).2.internalErrors = [] ∧
    unannotated (log.check capture lvl msg).1 = true := by
  have hcond : ¬(lvl.toInt < Level.dpanic.toInt ∧ log.core.enabled lvl = false) := by
    rintro ⟨h1, h2⟩
    rw [hen h1] at h2
    cases h2
  cases hD : log.development <;> cases lvl <;>
    simp [Logger.check, Core.check, hA, hD, hcond, CheckedEntry.after, unannotated,
      EntryCaller.empty, CheckEffects.afterCheck, CheckEffects.rejected]

/-- Witness for C7 at a concrete input: a Fatal-level call on the no-op
logger (whose sink admits nothing) returns the synthesized record with
no annotation work. -/
theorem check_no_admission_skips_annotation_work_witness :
    (Logger.check nopLogger (fun _ _ => []) .fatal "m").2.captureCalls = 0 ∧
    (Logger.check nopLogger (fun _ _ => []) .fatal "m").2.internalErrors = [] ∧
    unannotated (Logger.check nopLogger (fun _ _ => []) .fatal "m").1 = true :=
  check_no_admission_skips_annotation_work nopLogger (fun _ _ => []) .fatal "m" (by decide) rfl

/-- C9: when caller annotation is enabled, the entry is admitted (a
real write is pending) and the capture session yields zero frames,
exactly one internal-error report is written to the snapshot's error
output (followed by one sync of it), and the pipeline still returns the
admission record normally with the error output attached. -/
theorem check_caller_capture_failure_reports_once (log : Logger) (capture : CaptureFn)
    (lvl : Level) (msg : String) (hcaller : log.addCaller = true)
    (hen : lvl.toInt < Level.dpanic.toInt → log.core.enabled lvl = true)
    (hA : log.core.checkAdmits (log.mkEntry lvl msg) = true)
    (hempty : ∀ dep, capture (log.callerSkip + 2) dep = []) :
    (log.check capture lvl msg).2.internalErrors =
      [(log.errorOutput, callerErrorLine log.clock.now)] ∧
    (log.check capture lvl msg).2.syncCalls = 1 ∧
    (log.check capture lvl msg).1.map CheckedEntry.errorOutput = some (some log.errorOutput) := by
  have hcond : ¬(lvl.toInt < Level.dpanic.toInt ∧ log.core.enabled lvl = false) := by
    rintro ⟨h1, h2⟩
    rw [hen h1] at h2
    cases h2
  cases hD : log.development <;> cases lvl <;>
    simp [Logger.check, Core.check, hA, hD, hcond, CheckedEntry.after, Logger.annotate,
      hcaller, hempty, CheckEffects.captureFailed]

/-- Witness for C9 at a concrete input: an Info-level call on an
always-admitting sink with caller annotation on and an empty capture
capability reports exactly one internal error and still returns the
record. -/
theorem check_caller_capture_failure_reports_once_witness :
    (Logger.check
        { nopLogger with
            core := { enabledF := fun _ => true, checkAdmits := fun _ => true, ctx := [] },
            addCaller := true }
        (fun _ _ => []) .info "m").2.internalErrors =
      [(WriteSyncer.discard, callerErrorLine 0)] ∧
    (Logger.check
        { nopLogger with
            core := { enabledF := fun _ => true, checkAdmits := fun _ => true, ctx := [] },
            addCaller := true }
        (fun _ _ => []) .info "m").2.syncCalls = 1 ∧
    (Logger.check
        { nopLogger with
            core := { enabledF := fun _ => true, checkAdmits := fun _ => true, ctx := [] },
            addCaller := true }
        (fun _ _ => []) .info "m").1.map CheckedEntry.errorOutput =
      some (some WriteSyncer.discard) :=
  check_caller_capture_failure_reports_once
    { nopLogger with
        core := { enabledF := fun _ => true, checkAdmits := fun _ => true, ctx := [] },
        addCaller := true }
    (fun _ _ => []) .info "m" rfl (fun _ => rfl) rfl (fun _ => rfl)

/-- C4: no configuration-producing operation mutates its receiver —
after `Named`, `With`, `WithOptions` or `Sugar`, the receiver's cell
still holds exactly its old data (core reference, name, flags,
callerSkip, clock, errorOutput, addStack all unchanged); the fields
added by `With` live only in the new snapshot's core, so logging
through the original cannot include them. -/
theorem config_ops_do_not_mutate_receiver (s : Store) (p : Ptr) (d : Logger) (seg : String)
    (fields : List Field) (opts : List ZOption) (h : s.get p = some d)
    (hf : fields ≠ []) :
    (Logger.named s p seg).1.get p = some d ∧
    (Logger.withFields s p fields).1.get p = some d ∧
    (Logger.withOptions s p opts).1.get p = some d ∧
    (Logger.sugar s p).1.get p = some d ∧
    ((Logger.withFields s p fields).1.get (Logger.withFields s p fields).2).map
        (fun l => l.core.ctx) = some (d.core.ctx ++ fields) := by
  have hlt : p < s.cells.length := Store.lt_of_get_some h
  have hne : (s.alloc d).2 ≠ p := by
    show s.cells.length ≠ p
    exact hlt.ne'
  have hfresh : (s.alloc d).2 < ((s.alloc d).1).cells.length := by
    show s.cells.length < ((s.alloc d).1).cells.length
    rw [Store.length_alloc]
    exact Nat.lt_succ_self _
  refine ⟨?_, ?_, ?_, ?_, ?_⟩
  · unfold Logger.named
    split
    · exact h
    · rw [h, Store.get_write_ne hne, Store.get_alloc_of_lt hlt]
      exact h
  · unfold Logger.withFields
    split
    · exact h
    · rw [h, Store.get_write_ne hne, Store.get_alloc_of_lt hlt]
      exact h
  · unfold Logger.withOptions
    rw [h, ZOption.foldl_apply_get_ne hne, Store.get_alloc_of_lt hlt]
    exact h
  · unfold Logger.sugar
    rw [h, Store.get_write_ne hne, Store.get_alloc_of_lt hlt]
    exact h
  · unfold Logger.withFields
    rw [if_neg hf, h, Store.get_write_self hfresh]
    simp [Core.withFields]

/-- Witness for C4 at a concrete input: a one-cell store, the no-op
logger as receiver, one field, one option. -/
theorem config_ops_do_not_mutate_receiver_witness :
    (Logger.named { cells := [nopLogger] } 0 "a").1.get 0 = some nopLogger ∧
    (Logger.withFields { cells := [nopLogger] } 0 [{ key := "k", value := "v" }]).1.get 0 =
      some nopLogger ∧
    (Logger.withOptions { cells := [nopLogger] } 0 [ZOption.development]).1.get 0 =
      some nopLogger ∧
    (Logger.sugar { cells := [nopLogger] } 0).1.get 0 = some nopLogger ∧
    ((Logger.withFields { cells := [nopLogger] } 0 [{ key := "k", value := "v" }]).1.get
        (Logger.withFields { cells := [nopLogger] } 0 [{ key := "k", value := "v" }]).2).map
      (fun l => l.core.ctx) = some (nopLogger.core.ctx ++ [{ key := "k", value := "v" }]) :=
  config_ops_do_not_mutate_receiver { cells := [nopLogger] } 0 nopLogger "a"
    [{ key := "k", value := "v" }] [ZOption.development] rfl (by simp)

/-- C5 counterexample: on a logger already named `"x"`,
`Named("a").Named("b")` yields `"x.a.b"`, not `"a.b"` — the claimed
equation does not hold for every logger. -/
theorem named_nested_join_counterexample :
    (let s0 : Store := { cells := [{ nopLogger with name := "x" }] }
     let r1 := Logger.named s0 0 "a"
     let r2 := Logger.named r1.1 r1.2 "b"
     (r2.1.get r2.2).map Logger.name) = some "x.a.b" ∧
    some "x.a.b" ≠ some "a.b" := by
  constructor
  · rfl
  · decide

/-- C5 (amended): on an unnamed logger, `Named` installs the segment as
the name and `Named("a").Named("b")` yields the joined name `"a.b"`
(on an already-named logger the segments are appended after the
existing name); `Named("")` is a no-op returning the receiver pointer
itself, so the returned logger's configuration is the receiver's. -/
theorem named_joins_segments (s : Store) (p : Ptr) (d : Logger) (seg : String)
    (h : s.get p = some d) (hun : d.name = "") (hseg : seg ≠ "") :
    ((Logger.named s p seg).1.get (Logger.named s p seg).2).map Logger.name = some seg ∧
    (let r1 := Logger.named s p "a"
     let r2 := Logger.named r1.1 r1.2 "b"
     (r2.1.get r2.2).map Logger.name) = some "a.b" ∧
    Logger.named s p "" = (s, p) := by
  have hfresh : (s.alloc d).2 < ((s.alloc d).1).cells.length := by
    show s.cells.length < ((s.alloc d).1).cells.length
    rw [Store.length_alloc]
    exact Nat.lt_succ_self _
  refine ⟨?_, ?_, by rw [Logger.named, if_pos rfl]⟩
  · unfold Logger.named
    rw [if_neg hseg, h, Store.get_write_self hfresh]
    simp [hun]
  · show ((Logger.named (Logger.named s p "a").1 (Logger.named s p "a").2 "b").1.get
        (Logger.named (Logger.named s p "a").1 (Logger.named s p "a").2 "b").2).map
        Logger.name = some "a.b"
    have ha : Logger.named s p "a" =
        ((s.alloc d).1.write (s.alloc d).2 { d with name := "a" }, (s.alloc d).2) := by
      unfold Logger.named
      rw [if_neg (by decide : ¬("a" = "")), h]
      simp [hun]
    rw [ha]
    have hget : ((s.alloc d).1.write (s.alloc d).2 { d with name := "a" }).get (s.alloc d).2 =
        some { d with name := "a" } := Store.get_write_self hfresh _
    unfold Logger.named
    rw [if_neg (by decide : ¬("b" = "")), hget]
    set st1 := (s.alloc d).1.write (s.alloc d).2 { d with name := "a" } with hst1
    have hq : (st1.alloc { d with name := "a" }).2 <
        ((st1.alloc { d with name := "a" }).1).cells.length := by
      show st1.cells.length < ((st1.alloc { d with name := "a" }).1).cells.length
      rw [Store.length_alloc]
      exact Nat.lt_succ_self _
    rw [Store.get_write_self hq]
    simp
    decide

/-- Witness for C5 at a concrete input: a one-cell store holding the
(unnamed) no-op logger, segment `"s"`. -/
theorem named_joins_segments_witness :
    ((Logger.named { cells := [nopLogger] } 0 "s").1.get
        (Logger.named { cells := [nopLogger] } 0 "s").2).map Logger.name = some "s" ∧
    (let r1 := Logger.named { cells := [nopLogger] } 0 "a"
     let r2 := Logger.named r1.1 r1.2 "b"
     (r2.1.get r2.2).map Logger.name) = some "a.b" ∧
    Logger.named { cells := [nopLogger] } 0 "" = ({ cells := [nopLogger] }, 0) :=
  named_joins_segments { cells := [nopLogger] } 0 nopLogger "s" rfl rfl (by decide)

/-- C8: `WithOptions` applies the options in order, left to right, to a
single working copy — the resulting snapshot is the pure left fold of
the option bodies over the receiver's data, so later options override
earlier ones on the same field while accumulating options add up: two
`AddCallerSkip` options increase the skip count by their sum, and of
two `WithFatalHook` options the second wins. -/
theorem withOptions_applies_left_to_right (s : Store) (p : Ptr) (d : Logger)
    (opts : List ZOption) (m n : Int) (h1 h2 : Option CheckWriteHook)
    (h : s.get p = some d) :
    (Logger.withOptions s p opts).1.get (Logger.withOptions s p opts).2 =
      some (opts.foldl (fun a o => o.applyData a) d) ∧
    ((Logger.withOptions s p [ZOption.addCallerSkip m, ZOption.addCallerSkip n]).1.get
        (Logger.withOptions s p [ZOption.addCallerSkip m, ZOption.addCallerSkip n]).2).map
      Logger.callerSkip = some (d.callerSkip + m + n) ∧
    ((Logger.withOptions s p [ZOption.withFatalHook h1, ZOption.withFatalHook h2]).1.get
        (Logger.withOptions s p [ZOption.withFatalHook h1, ZOption.withFatalHook h2]).2).map
      Logger.onFatal = some h2 := by
  refine ⟨Logger.withOptions_get h opts, ?_, ?_⟩
  · rw [Logger.withOptions_get h]
    simp [ZOption.applyData]
  · rw [Logger.withOptions_get h]
    simp [ZOption.applyData]

/-- Witness for C8 at a concrete input: a one-cell store, skips 3 and
4, two distinct fatal hooks. -/
theorem withOptions_applies_left_to_right_witness :
    (Logger.withOptions { cells := [nopLogger] } 0 [ZOption.development]).1.get
        (Logger.withOptions { cells := [nopLogger] } 0 [ZOption.development]).2 =
      some ([ZOption.development].foldl (fun a o => o.applyData a) nopLogger) ∧
    ((Logger.withOptions { cells := [nopLogger] } 0
          [ZOption.addCallerSkip 3, ZOption.addCallerSkip 4]).1.get
        (Logger.withOptions { cells := [nopLogger] } 0
          [ZOption.addCallerSkip 3, ZOption.addCallerSkip 4]).2).map
      Logger.callerSkip = some (nopLogger.callerSkip + 3 + 4) ∧
    ((Logger.withOptions { cells := [nopLogger] } 0
          [ZOption.withFatalHook (some CheckWriteHook.writeThenGoexit),
           ZOption.withFatalHook (some (CheckWriteHook.custom 7))]).1.get
        (Logger.withOptions { cells := [nopLogger] } 0
          [ZOption.withFatalHook (some CheckWriteHook.writeThenGoexit),
           ZOption.withFatalHook (some (CheckWriteHook.custom 7))]).2).map
      Logger.onFatal = some (some (CheckWriteHook.custom 7)) :=
  withOptions_applies_left_to_right { cells := [nopLogger] } 0 nopLogger
    [ZOption.development] 3 4 (some CheckWriteHook.writeThenGoexit)
    (some (CheckWriteHook.custom 7)) rfl

/-- C10: `New` with a nil core falls back to the no-op logger for every
options list — the options are not applied — and the returned cell
holds exactly the no-op logger: no-op core, discarded error output. -/
theorem new_nil_core_returns_nop (s : Store) (opts : List ZOption) :
    New s none opts = NewNop s ∧
    (New s none opts).1.get (New s none opts).2 = some nopLogger ∧
    nopLogger.core = nopCore ∧
    nopLogger.errorOutput = WriteSyncer.discard :=
  ⟨rfl, Store.get_alloc_self s nopLogger, rfl, rfl⟩

end Zap
